import Mathlib

/-!
# Client-side state synchronization layer of the book/quote tracker

Shallow embedding of the synchronization core found in the repository's
current revision (`src/unnamed/part_000`, the `App` component): the three
in-memory collections (`books`, `quotes`, `booksWithQuotes`), the
`localStorage` offline cache, the initial `loadAll` protocol, the three
per-collection fetch functions with their cache-fallback catch branches,
and the six mutations with their selective refreshes.

Modelling conventions:
* Network outcomes of GET/write requests are passed in as `Except Unit _`
  values (`.ok data` = the awaited axios promise resolved with `data`,
  `.error ()` = it rejected).
* React `useState` state plus the `localStorage` cache are threaded
  explicitly through a `St` record.  `toast.error`/`toast.success` calls
  append the toasted message to `St.toasts`.
* A `localStorage` slot holds `none` (absent), or `some (Stored.good v)`
  (the `JSON.stringify` serialization of `v`, which `JSON.parse` recovers),
  or `some Stored.corrupt` (a non-deserializable string, on which
  `JSON.parse` throws).
* Each fetch function records the GET it issues in `St.fetchLog`; each
  mutation records the single write request it issues in `St.writes`.
  A fetch returns `St × Bool`, the second component `true` exactly when the
  function's own promise rejected (the unguarded `JSON.parse` in its catch
  branch threw on a corrupt cache entry).
* Ratings are modelled as `Rat` (the code uses JS numbers; no claim
  computes with them).
-/

namespace BookApp

/-- The three client-side collections. -/
inductive Coll : Type
  | books
  | quotes
  | booksWithQuotes
deriving DecidableEq, Repr

/-- A book record as served by `GET /books`. -/
structure Book where
  title : String
  status : String
  rating : Rat
  number : Int
deriving DecidableEq, Repr

/-- A quote record as served by `GET /quotes`.  `book_title` is an `Option`
because the client can post `book_title: null` (no book selected). -/
structure Quote where
  book_title : Option String
  text : String
  user_id : Int
  discussion : String
deriving DecidableEq, Repr

/-- Content of a `localStorage` slot that holds a string: either the
`JSON.stringify` image of a value `v` (so `JSON.parse` returns `v`), or a
corrupt string on which `JSON.parse` throws. -/
inductive Stored (α : Type) : Type
  | good (v : α)
  | corrupt
deriving DecidableEq, Repr

/-- The offline cache: the three `localStorage` keys used by the app
(`books`, `quotes`, `booksWithQuotes`), each absent or holding a string. -/
structure Cache where
  books : Option (Stored (List Book))
  quotes : Option (Stored (List Quote))
  booksWithQuotes : Option (Stored (List String))
deriving DecidableEq, Repr

/-- The add-book form state (`bookForm`). -/
structure BookForm where
  title : String
  status : String
  rating : Rat
deriving DecidableEq, Repr

/-- The add-quote form state (`quoteForm`). -/
structure QuoteForm where
  text : String
  discussion : String
  user_id : Int
deriving DecidableEq, Repr

/-- Partial update map sent by `PUT /books/{title}` (any subset of
`title`, `status`, `rating`). -/
structure BookUpdates where
  title : Option String
  status : Option String
  rating : Option Rat
deriving DecidableEq, Repr

/-- Body of `POST /quotes`. -/
structure QuoteBody where
  book_title : Option String
  text : String
  user_id : Int
  discussion : String
deriving DecidableEq, Repr

/-- A write request issued by a mutation. -/
inductive WriteReq : Type
  | postBook (body : BookForm)
  | putBook (title : String) (updates : BookUpdates)
  | delBook (title : String)
  | postQuote (body : QuoteBody)
  | putQuote (book_title : String) (text : String) (discussion : String)
  | delQuote (book_title : String) (text : String)
deriving DecidableEq, Repr

/-- The component state visible to the claims: the three collections, the
`loading` flag, the toasted messages, the offline cache, and the logs of
GETs (`fetchLog`) and write requests (`writes`) issued. -/
structure St where
  books : List Book
  quotes : List Quote
  booksWithQuotes : List String
  loading : Bool
  toasts : List String
  cache : Cache
  fetchLog : List Coll
  writes : List WriteReq
deriving DecidableEq, Repr

/-- JavaScript `String.prototype.trim()`: strip leading and trailing
whitespace (modelled structurally on the character list so that it is
kernel-computable). -/
def jsTrim (t : String) : String :=
  String.mk (((t.data.dropWhile Char.isWhitespace).reverse.dropWhile Char.isWhitespace).reverse)

/-- State right after `useState` initialization: all collections empty,
`loading` true, nothing cached. -/
def initSt : St :=
  { books := []
    quotes := []
    booksWithQuotes := []
    loading := true
    toasts := []
    cache := { books := none, quotes := none, booksWithQuotes := none }
    fetchLog := []
    writes := [] }

/-- `fetchBooks` (part_000 lines 102–115): GET `/books`; on success set
`books` and mirror the snapshot into `localStorage['books']`; on failure,
read the cached snapshot — absent: skip; parseable: set `books` to it —
then toast.  A corrupt entry makes the unguarded `JSON.parse` throw, so the
toast is not reached and the function's promise rejects (second component
`true`). -/
def fetchBooks (net : Except Unit (List Book)) (s : St) : St × Bool :=
  match net with
  | .ok data =>
      ({ s with books := data
                cache := { s.cache with books := some (Stored.good data) }
                fetchLog := s.fetchLog ++ [Coll.books] }, false)
  | .error _ =>
      match s.cache.books with
      | none =>
          ({ s with toasts := s.toasts ++ ["Failed to fetch books"]
                    fetchLog := s.fetchLog ++ [Coll.books] }, false)
      | some (Stored.good v) =>
          ({ s with books := v
                    toasts := s.toasts ++ ["Failed to fetch books"]
                    fetchLog := s.fetchLog ++ [Coll.books] }, false)
      | some Stored.corrupt =>
          ({ s with fetchLog := s.fetchLog ++ [Coll.books] }, true)

/-- `fetchBooksWithQuotes` (part_000 lines 118–129), same shape as
`fetchBooks` for the `booksWithQuotes` collection. -/
def fetchBooksWithQuotes (net : Except Unit (List String)) (s : St) : St × Bool :=
  match net with
  | .ok data =>
      ({ s with booksWithQuotes := data
                cache := { s.cache with booksWithQuotes := some (Stored.good data) }
                fetchLog := s.fetchLog ++ [Coll.booksWithQuotes] }, false)
  | .error _ =>
      match s.cache.booksWithQuotes with
      | none =>
          ({ s with toasts := s.toasts ++ ["Failed to fetch books with quotes"]
                    fetchLog := s.fetchLog ++ [Coll.booksWithQuotes] }, false)
      | some (Stored.good v) =>
          ({ s with booksWithQuotes := v
                    toasts := s.toasts ++ ["Failed to fetch books with quotes"]
                    fetchLog := s.fetchLog ++ [Coll.booksWithQuotes] }, false)
      | some Stored.corrupt =>
          ({ s with fetchLog := s.fetchLog ++ [Coll.booksWithQuotes] }, true)

/-- `fetchQuotes` (part_000 lines 131–142), same shape as `fetchBooks` for
the `quotes` collection. -/
def fetchQuotes (net : Except Unit (List Quote)) (s : St) : St × Bool :=
  match net with
  | .ok data =>
      ({ s with quotes := data
                cache := { s.cache with quotes := some (Stored.good data) }
                fetchLog := s.fetchLog ++ [Coll.quotes] }, false)
  | .error _ =>
      match s.cache.quotes with
      | none =>
          ({ s with toasts := s.toasts ++ ["Failed to fetch quotes"]
                    fetchLog := s.fetchLog ++ [Coll.quotes] }, false)
      | some (Stored.good v) =>
          ({ s with quotes := v
                    toasts := s.toasts ++ ["Failed to fetch quotes"]
                    fetchLog := s.fetchLog ++ [Coll.quotes] }, false)
      | some Stored.corrupt =>
          ({ s with fetchLog := s.fetchLog ++ [Coll.quotes] }, true)

/-- `loadAll` (part_000 lines 41–70): set `loading` true, issue the three
GETs, join them with `Promise.all`, and — unless `cancelled` — apply all
three results on success, or toast a single generic failure when any of the
three rejected (`Promise.all` rejects as a whole; the catch branch performs
no cache fallback and touches no collection).  The `finally` clears
`loading` only when not cancelled.  The `cancelled` flag is the value of the
effect-scope variable at the time the joined promise's continuation runs. -/
def loadAll (netB : Except Unit (List Book)) (netQ : Except Unit (List Quote))
    (netW : Except Unit (List String)) (cancelled : Bool) (s : St) : St :=
  let s1 : St := { s with loading := true }
  match netB, netQ, netW with
  | .ok b, .ok q, .ok w =>
      if cancelled then s1
      else { s1 with books := b, quotes := q, booksWithQuotes := w, loading := false }
  | _, _, _ =>
      if cancelled then s1
      else { s1 with toasts := s1.toasts ++ ["Failed to load data"], loading := false }

/-- `addBook` (part_000 lines 144–160): an empty/whitespace-only title
blocks the request; otherwise POST `/books`; on success toast and refresh
`books` and `booksWithQuotes` (fire-and-forget); on failure toast only. -/
def addBook (form : BookForm) (wr : Except Unit Unit)
    (netB : Except Unit (List Book)) (netW : Except Unit (List String)) (s : St) : St :=
  if jsTrim form.title = "" then
    { s with toasts := s.toasts ++ ["Title is required"] }
  else
    let s1 : St := { s with writes := s.writes ++ [WriteReq.postBook form] }
    match wr with
    | .ok _ =>
        let s2 : St := { s1 with toasts := s1.toasts ++ ["Book added successfully"] }
        (fetchBooksWithQuotes netW (fetchBooks netB s2).1).1
    | .error _ => { s1 with toasts := s1.toasts ++ ["Failed to add book"] }

/-- `updateBook` (part_000 lines 162–174): PUT `/books/{title}`; on success
toast and refresh `books` and `booksWithQuotes`; on failure toast only. -/
def updateBook (title : String) (updates : BookUpdates) (wr : Except Unit Unit)
    (netB : Except Unit (List Book)) (netW : Except Unit (List String)) (s : St) : St :=
  let s1 : St := { s with writes := s.writes ++ [WriteReq.putBook title updates] }
  match wr with
  | .ok _ =>
      let s2 : St := { s1 with toasts := s1.toasts ++ ["Book updated successfully"] }
      (fetchBooksWithQuotes netW (fetchBooks netB s2).1).1
  | .error _ => { s1 with toasts := s1.toasts ++ ["Failed to update book"] }

/-- `deleteBook` (part_000 lines 198–210): `window.confirm` gate, then
DELETE `/books/{title}`; on success toast and refresh `books` only —
`fetchBooksWithQuotes` is deliberately not called, so the orphaned quote
card stays; on failure toast only. -/
def deleteBook (confirmOk : Bool) (title : String) (wr : Except Unit Unit)
    (netB : Except Unit (List Book)) (s : St) : St :=
  if !confirmOk then s
  else
    let s1 : St := { s with writes := s.writes ++ [WriteReq.delBook title] }
    match wr with
    | .ok _ =>
        let s2 : St := { s1 with toasts := s1.toasts ++ ["Book deleted successfully"] }
        (fetchBooks netB s2).1
    | .error _ => { s1 with toasts := s1.toasts ++ ["Failed to delete book"] }

/-- `addQuote` (part_000 lines 212–233): empty/whitespace-only quote text
blocks the request; no check that a book is selected — the POST body's
`book_title` is the current `selectedBook`, possibly `null`.  On success
toast and refresh `quotes` and `booksWithQuotes`; on failure toast only. -/
def addQuote (form : QuoteForm) (selectedBook : Option String) (wr : Except Unit Unit)
    (netQ : Except Unit (List Quote)) (netW : Except Unit (List String)) (s : St) : St :=
  if jsTrim form.text = "" then
    { s with toasts := s.toasts ++ ["Quote text is required"] }
  else
    let s1 : St := { s with writes := s.writes ++
      [WriteReq.postQuote ⟨selectedBook, form.text, form.user_id, form.discussion⟩] }
    match wr with
    | .ok _ =>
        let s2 : St := { s1 with toasts := s1.toasts ++ ["Quote added successfully"] }
        (fetchBooksWithQuotes netW (fetchQuotes netQ s2).1).1
    | .error _ => { s1 with toasts := s1.toasts ++ ["Failed to add quote"] }

/-- `updateQuoteDiscussion` (part_000 lines 235–244): PUT
`/quotes/{book_title}/{text}`; on success toast and refresh `quotes` only;
on failure toast only. -/
def updateQuoteDiscussion (bookTitle quoteText discussion : String) (wr : Except Unit Unit)
    (netQ : Except Unit (List Quote)) (s : St) : St :=
  let s1 : St := { s with writes := s.writes ++ [WriteReq.putQuote bookTitle quoteText discussion] }
  match wr with
  | .ok _ =>
      let s2 : St := { s1 with toasts := s1.toasts ++ ["Discussion updated"] }
      (fetchQuotes netQ s2).1
  | .error _ => { s1 with toasts := s1.toasts ++ ["Failed to update discussion"] }

/-- `deleteQuote` (part_000 lines 246–257): `window.confirm` gate, then
DELETE `/quotes/{book_title}/{text}`; on success toast and refresh `quotes`
and `booksWithQuotes`; on failure toast only. -/
def deleteQuote (confirmOk : Bool) (bookTitle quoteText : String) (wr : Except Unit Unit)
    (netQ : Except Unit (List Quote)) (netW : Except Unit (List String)) (s : St) : St :=
  if !confirmOk then s
  else
    let s1 : St := { s with writes := s.writes ++ [WriteReq.delQuote bookTitle quoteText] }
    match wr with
    | .ok _ =>
        let s2 : St := { s1 with toasts := s1.toasts ++ ["Quote deleted successfully"] }
        (fetchBooksWithQuotes netW (fetchQuotes netQ s2).1).1
    | .error _ => { s1 with toasts := s1.toasts ++ ["Failed to delete quote"] }

/-! ## Frame lemmas for the three fetch functions

Whatever the network outcome and the cache content, `fetchBooks` touches only
`books`, `cache.books` and `toasts` (and logs its GET); likewise for the other
two fetches on their own collection. -/

theorem fetchBooks_quotes (net : Except Unit (List Book)) (s : St) :
    (fetchBooks net s).1.quotes = s.quotes := by
  cases net with
  | ok d => simp [fetchBooks]
  | error e =>
      cases h : s.cache.books with
      | none => simp [fetchBooks, h]
      | some st => cases st <;> simp [fetchBooks, h]

theorem fetchBooks_bwq (net : Except Unit (List Book)) (s : St) :
    (fetchBooks net s).1.booksWithQuotes = s.booksWithQuotes := by
  cases net with
  | ok d => simp [fetchBooks]
  | error e =>
      cases h : s.cache.books with
      | none => simp [fetchBooks, h]
      | some st => cases st <;> simp [fetchBooks, h]

theorem fetchBooks_cacheQuotes (net : Except Unit (List Book)) (s : St) :
    (fetchBooks net s).1.cache.quotes = s.cache.quotes := by
  cases net with
  | ok d => simp [fetchBooks]
  | error e =>
      cases h : s.cache.books with
      | none => simp [fetchBooks, h]
      | some st => cases st <;> simp [fetchBooks, h]

theorem fetchBooks_cacheBwq (net : Except Unit (List Book)) (s : St) :
    (fetchBooks net s).1.cache.booksWithQuotes = s.cache.booksWithQuotes := by
  cases net with
  | ok d => simp [fetchBooks]
  | error e =>
      cases h : s.cache.books with
      | none => simp [fetchBooks, h]
      | some st => cases st <;> simp [fetchBooks, h]

theorem fetchBooks_log (net : Except Unit (List Book)) (s : St) :
    (fetchBooks net s).1.fetchLog = s.fetchLog ++ [Coll.books] := by
  cases net with
  | ok d => simp [fetchBooks]
  | error e =>
      cases h : s.cache.books with
      | none => simp [fetchBooks, h]
      | some st => cases st <;> simp [fetchBooks, h]

theorem fetchBooks_writes (net : Except Unit (List Book)) (s : St) :
    (fetchBooks net s).1.writes = s.writes := by
  cases net with
  | ok d => simp [fetchBooks]
  | error e =>
      cases h : s.cache.books with
      | none => simp [fetchBooks, h]
      | some st => cases st <;> simp [fetchBooks, h]

theorem fetchBooks_loading (net : Except Unit (List Book)) (s : St) :
    (fetchBooks net s).1.loading = s.loading := by
  cases net with
  | ok d => simp [fetchBooks]
  | error e =>
      cases h : s.cache.books with
      | none => simp [fetchBooks, h]
      | some st => cases st <;> simp [fetchBooks, h]

theorem fetchQuotes_books (net : Except Unit (List Quote)) (s : St) :
    (fetchQuotes net s).1.books = s.books := by
  cases net with
  | ok d => simp [fetchQuotes]
  | error e =>
      cases h : s.cache.quotes with
      | none => simp [fetchQuotes, h]
      | some st => cases st <;> simp [fetchQuotes, h]

theorem fetchQuotes_bwq (net : Except Unit (List Quote)) (s : St) :
    (fetchQuotes net s).1.booksWithQuotes = s.booksWithQuotes := by
  cases net with
  | ok d => simp [fetchQuotes]
  | error e =>
      cases h : s.cache.quotes with
      | none => simp [fetchQuotes, h]
      | some st => cases st <;> simp [fetchQuotes, h]

theorem fetchQuotes_cacheBooks (net : Except Unit (List Quote)) (s : St) :
    (fetchQuotes net s).1.cache.books = s.cache.books := by
  cases net with
  | ok d => simp [fetchQuotes]
  | error e =>
      cases h : s.cache.quotes with
      | none => simp [fetchQuotes, h]
      | some st => cases st <;> simp [fetchQuotes, h]

theorem fetchQuotes_cacheBwq (net : Except Unit (List Quote)) (s : St) :
    (fetchQuotes net s).1.cache.booksWithQuotes = s.cache.booksWithQuotes := by
  cases net with
  | ok d => simp [fetchQuotes]
  | error e =>
      cases h : s.cache.quotes with
      | none => simp [fetchQuotes, h]
      | some st => cases st <;> simp [fetchQuotes, h]

theorem fetchQuotes_log (net : Except Unit (List Quote)) (s : St) :
    (fetchQuotes net s).1.fetchLog = s.fetchLog ++ [Coll.quotes] := by
  cases net with
  | ok d => simp [fetchQuotes]
  | error e =>
      cases h : s.cache.quotes with
      | none => simp [fetchQuotes, h]
      | some st => cases st <;> simp [fetchQuotes, h]

theorem fetchQuotes_writes (net : Except Unit (List Quote)) (s : St) :
    (fetchQuotes net s).1.writes = s.writes := by
  cases net with
  | ok d => simp [fetchQuotes]
  | error e =>
      cases h : s.cache.quotes with
      | none => simp [fetchQuotes, h]
      | some st => cases st <;> simp [fetchQuotes, h]

theorem fetchQuotes_loading (net : Except Unit (List Quote)) (s : St) :
    (fetchQuotes net s).1.loading = s.loading := by
  cases net with
  | ok d => simp [fetchQuotes]
  | error e =>
      cases h : s.cache.quotes with
      | none => simp [fetchQuotes, h]
      | some st => cases st <;> simp [fetchQuotes, h]

theorem fetchBWQ_books (net : Except Unit (List String)) (s : St) :
    (fetchBooksWithQuotes net s).1.books = s.books := by
  cases net with
  | ok d => simp [fetchBooksWithQuotes]
  | error e =>
      cases h : s.cache.booksWithQuotes with
      | none => simp [fetchBooksWithQuotes, h]
      | some st => cases st <;> simp [fetchBooksWithQuotes, h]

theorem fetchBWQ_quotes (net : Except Unit (List String)) (s : St) :
    (fetchBooksWithQuotes net s).1.quotes = s.quotes := by
  cases net with
  | ok d => simp [fetchBooksWithQuotes]
  | error e =>
      cases h : s.cache.booksWithQuotes with
      | none => simp [fetchBooksWithQuotes, h]
      | some st => cases st <;> simp [fetchBooksWithQuotes, h]

theorem fetchBWQ_cacheBooks (net : Except Unit (List String)) (s : St) :
    (fetchBooksWithQuotes net s).1.cache.books = s.cache.books := by
  cases net with
  | ok d => simp [fetchBooksWithQuotes]
  | error e =>
      cases h : s.cache.booksWithQuotes with
      | none => simp [fetchBooksWithQuotes, h]
      | some st => cases st <;> simp [fetchBooksWithQuotes, h]

theorem fetchBWQ_cacheQuotes (net : Except Unit (List String)) (s : St) :
    (fetchBooksWithQuotes net s).1.cache.quotes = s.cache.quotes := by
  cases net with
  | ok d => simp [fetchBooksWithQuotes]
  | error e =>
      cases h : s.cache.booksWithQuotes with
      | none => simp [fetchBooksWithQuotes, h]
      | some st => cases st <;> simp [fetchBooksWithQuotes, h]

theorem fetchBWQ_log (net : Except Unit (List String)) (s : St) :
    (fetchBooksWithQuotes net s).1.fetchLog = s.fetchLog ++ [Coll.booksWithQuotes] := by
  cases net with
  | ok d => simp [fetchBooksWithQuotes]
  | error e =>
      cases h : s.cache.booksWithQuotes with
      | none => simp [fetchBooksWithQuotes, h]
      | some st => cases st <;> simp [fetchBooksWithQuotes, h]

theorem fetchBWQ_writes (net : Except Unit (List String)) (s : St) :
    (fetchBooksWithQuotes net s).1.writes = s.writes := by
  cases net with
  | ok d => simp [fetchBooksWithQuotes]
  | error e =>
      cases h : s.cache.booksWithQuotes with
      | none => simp [fetchBooksWithQuotes, h]
      | some st => cases st <;> simp [fetchBooksWithQuotes, h]

theorem fetchBWQ_loading (net : Except Unit (List String)) (s : St) :
    (fetchBooksWithQuotes net s).1.loading = s.loading := by
  cases net with
  | ok d => simp [fetchBooksWithQuotes]
  | error e =>
      cases h : s.cache.booksWithQuotes with
      | none => simp [fetchBooksWithQuotes, h]
      | some st => cases st <;> simp [fetchBooksWithQuotes, h]

/-! ## Sample values for counterexamples and witnesses -/

/-- Sample book. -/
def b0 : Book := { title := "Dune", status := "To Read", rating := 8, number := 1 }

/-- Sample quote. -/
def q0 : Quote :=
  { book_title := some "Dune", text := "Fear is the mind-killer", user_id := 1, discussion := "" }

/-- Sample add-book form with a non-blank title. -/
def f0 : BookForm := { title := "Dune", status := "To Read", rating := 8 }

/-- Sample add-quote form with a non-blank text. -/
def qf0 : QuoteForm := { text := "Fear is the mind-killer", discussion := "", user_id := 1 }

/-- Sample add-quote form whose text is whitespace only. -/
def qfBlank : QuoteForm := { text := "   ", discussion := "", user_id := 1 }

/-- Sample partial book update. -/
def u0 : BookUpdates := { title := none, status := some "Reading", rating := none }

/-! ## Claims -/

/-- C1: a Delete Book mutation that succeeds (confirm accepted, DELETE
resolved) re-fetches only the `books` collection; whatever the refresh's
own network outcome and cache content, the `quotes` and `booksWithQuotes`
collections and their cache entries are exactly as before the call, so the
client never removes the deleted book's title from books-with-quotes nor
its quotes from the quotes collection. -/
theorem deleteBook_refreshes_books_only (title : String)
    (netB : Except Unit (List Book)) (s : St) :
    (deleteBook true title (.ok ()) netB s).quotes = s.quotes ∧
    (deleteBook true title (.ok ()) netB s).booksWithQuotes = s.booksWithQuotes ∧
    (deleteBook true title (.ok ()) netB s).cache.quotes = s.cache.quotes ∧
    (deleteBook true title (.ok ()) netB s).cache.booksWithQuotes = s.cache.booksWithQuotes ∧
    (deleteBook true title (.ok ()) netB s).fetchLog = s.fetchLog ++ [Coll.books] := by
  simp [deleteBook, fetchBooks_quotes, fetchBooks_bwq, fetchBooks_cacheQuotes,
    fetchBooks_cacheBwq, fetchBooks_log]

/-- C4: a successful Update Quote discussion mutation re-fetches only the
`quotes` collection; the `books` and `booksWithQuotes` collections and
their cache entries are identical to their value before the call. -/
theorem updateQuoteDiscussion_refreshes_quotes_only (bt qt d : String)
    (netQ : Except Unit (List Quote)) (s : St) :
    (updateQuoteDiscussion bt qt d (.ok ()) netQ s).books = s.books ∧
    (updateQuoteDiscussion bt qt d (.ok ()) netQ s).booksWithQuotes = s.booksWithQuotes ∧
    (updateQuoteDiscussion bt qt d (.ok ()) netQ s).cache.books = s.cache.books ∧
    (updateQuoteDiscussion bt qt d (.ok ()) netQ s).cache.booksWithQuotes
      = s.cache.booksWithQuotes ∧
    (updateQuoteDiscussion bt qt d (.ok ()) netQ s).fetchLog = s.fetchLog ++ [Coll.quotes] := by
  simp [updateQuoteDiscussion, fetchQuotes_books, fetchQuotes_bwq, fetchQuotes_cacheBooks,
    fetchQuotes_cacheBwq, fetchQuotes_log]

/-- C5: if the view is torn down (`cancelled = true` when the initial
load's join continuation runs) before the barrier resolves, none of the
three collections is mutated, whatever the three fetch outcomes: the
in-flight results are discarded and collections and cache stay exactly as
initialized. -/
theorem loadAll_cancelled_no_mutation (netB : Except Unit (List Book))
    (netQ : Except Unit (List Quote)) (netW : Except Unit (List String)) (s : St) :
    (loadAll netB netQ netW true s).books = s.books ∧
    (loadAll netB netQ netW true s).quotes = s.quotes ∧
    (loadAll netB netQ netW true s).booksWithQuotes = s.booksWithQuotes ∧
    (loadAll netB netQ netW true s).cache = s.cache ∧
    (loadAll netB netQ netW true s).toasts = s.toasts := by
  cases netB <;> cases netQ <;> cases netW <;> simp [loadAll]

/-- C3: each successful mutation issues exactly the GET refreshes of the
mutation-to-refresh table, in order, and nothing else: Add Book and Update
Book refresh `books` then `booksWithQuotes`; Delete Book refreshes `books`
only; Add Quote and Delete Quote refresh `quotes` then `booksWithQuotes`;
Update Quote discussion refreshes `quotes` only. -/
theorem mutation_refresh_table (form : BookForm) (qform : QuoteForm)
    (hb : jsTrim form.title ≠ "") (hq : jsTrim qform.text ≠ "")
    (t bt qt d : String) (u : BookUpdates) (sel : Option String)
    (nb : Except Unit (List Book)) (nq : Except Unit (List Quote))
    (nw : Except Unit (List String)) (s : St) :
    (addBook form (.ok ()) nb nw s).fetchLog
      = s.fetchLog ++ [Coll.books, Coll.booksWithQuotes] ∧
    (updateBook t u (.ok ()) nb nw s).fetchLog
      = s.fetchLog ++ [Coll.books, Coll.booksWithQuotes] ∧
    (deleteBook true t (.ok ()) nb s).fetchLog
      = s.fetchLog ++ [Coll.books] ∧
    (addQuote qform sel (.ok ()) nq nw s).fetchLog
      = s.fetchLog ++ [Coll.quotes, Coll.booksWithQuotes] ∧
    (updateQuoteDiscussion bt qt d (.ok ()) nq s).fetchLog
      = s.fetchLog ++ [Coll.quotes] ∧
    (deleteQuote true bt qt (.ok ()) nq nw s).fetchLog
      = s.fetchLog ++ [Coll.quotes, Coll.booksWithQuotes] := by
  refine ⟨?_, ?_, ?_, ?_, ?_, ?_⟩
  · simp [addBook, hb, fetchBooks_log, fetchBWQ_log]
  · simp [updateBook, fetchBooks_log, fetchBWQ_log]
  · simp [deleteBook, fetchBooks_log]
  · simp [addQuote, hq, fetchQuotes_log, fetchBWQ_log]
  · simp [updateQuoteDiscussion, fetchQuotes_log]
  · simp [deleteQuote, fetchQuotes_log, fetchBWQ_log]

/-- Witness for `mutation_refresh_table` at concrete inputs. -/
theorem mutation_refresh_table_witness :
    (addBook f0 (.ok ()) (.ok []) (.ok []) initSt).fetchLog
      = initSt.fetchLog ++ [Coll.books, Coll.booksWithQuotes] ∧
    (updateBook "Dune" u0 (.ok ()) (.ok []) (.ok []) initSt).fetchLog
      = initSt.fetchLog ++ [Coll.books, Coll.booksWithQuotes] ∧
    (deleteBook true "Dune" (.ok ()) (.ok []) initSt).fetchLog
      = initSt.fetchLog ++ [Coll.books] ∧
    (addQuote qf0 (some "Dune") (.ok ()) (.ok []) (.ok []) initSt).fetchLog
      = initSt.fetchLog ++ [Coll.quotes, Coll.booksWithQuotes] ∧
    (updateQuoteDiscussion "Dune" "x" "y" (.ok ()) (.ok []) initSt).fetchLog
      = initSt.fetchLog ++ [Coll.quotes] ∧
    (deleteQuote true "Dune" "x" (.ok ()) (.ok []) (.ok []) initSt).fetchLog
      = initSt.fetchLog ++ [Coll.quotes, Coll.booksWithQuotes] :=
  mutation_refresh_table f0 qf0 (by decide) (by decide) "Dune" "Dune" "x" "y" u0
    (some "Dune") (.ok []) (.ok []) (.ok []) initSt

/-- Concrete initial state for the C2 counterexample: nothing loaded yet,
but a populated cached snapshot for `quotes`. -/
def s0C2 : St :=
  { initSt with cache :=
    { books := none, quotes := some (Stored.good [q0]), booksWithQuotes := none } }

/-- C2 counterexample: with the books fetch succeeding (`[b0]`), the quotes
and books-with-quotes fetches failing, and a cached quotes snapshot `[q0]`
available, the initial load leaves `books` and `quotes` empty — it neither
applies the successful books result nor falls back to the cached quotes —
refuting the claimed per-fetch apply/fallback behaviour. -/
theorem loadAll_partial_outcome_cex :
    (loadAll (.ok [b0]) (.error ()) (.error ()) false s0C2).books = [] ∧
    (loadAll (.ok [b0]) (.error ()) (.error ()) false s0C2).quotes = [] ∧
    (loadAll (.ok [b0]) (.error ()) (.error ()) false s0C2).loading = false ∧
    ¬ ((loadAll (.ok [b0]) (.error ()) (.error ()) false s0C2).books = [b0] ∧
       (loadAll (.ok [b0]) (.error ()) (.error ()) false s0C2).quotes = [q0]) := by
  simp [loadAll, s0C2, initSt]

/-- C2 amended: the initial load joins the three fetches all-or-nothing.
`loading` is false once the joined continuation runs (not cancelled), the
cache is never touched, and either all three fetches succeeded and all
three results are applied with no toast, or no collection is updated at
all (no cache fallback) and a single generic failure toast is raised. -/
theorem loadAll_all_or_nothing (netB : Except Unit (List Book))
    (netQ : Except Unit (List Quote)) (netW : Except Unit (List String)) (s : St) :
    (loadAll netB netQ netW false s).loading = false ∧
    (loadAll netB netQ netW false s).cache = s.cache ∧
    ((∃ b q w, netB = .ok b ∧ netQ = .ok q ∧ netW = .ok w ∧
        (loadAll netB netQ netW false s).books = b ∧
        (loadAll netB netQ netW false s).quotes = q ∧
        (loadAll netB netQ netW false s).booksWithQuotes = w ∧
        (loadAll netB netQ netW false s).toasts = s.toasts) ∨
      ((loadAll netB netQ netW false s).books = s.books ∧
       (loadAll netB netQ netW false s).quotes = s.quotes ∧
       (loadAll netB netQ netW false s).booksWithQuotes = s.booksWithQuotes ∧
       (loadAll netB netQ netW false s).toasts = s.toasts ++ ["Failed to load data"])) := by
  cases netB with
  | ok b =>
      cases netQ with
      | ok q =>
          cases netW with
          | ok w => exact ⟨rfl, rfl, Or.inl ⟨b, q, w, rfl, rfl, rfl, rfl, rfl, rfl, rfl⟩⟩
          | error e => exact ⟨rfl, rfl, Or.inr ⟨rfl, rfl, rfl, rfl⟩⟩
      | error e => cases netW <;> exact ⟨rfl, rfl, Or.inr ⟨rfl, rfl, rfl, rfl⟩⟩
  | error e => cases netQ <;> cases netW <;> exact ⟨rfl, rfl, Or.inr ⟨rfl, rfl, rfl, rfl⟩⟩

/-- C8 counterexample: a fully successful initial load replaces all three
collections wholesale but writes nothing to the offline cache — all three
cache keys are still absent afterwards, refuting the claim that every
successful load snapshots to the cache. -/
theorem loadAll_no_cache_write_cex :
    (loadAll (.ok [b0]) (.ok [q0]) (.ok ["Dune"]) false initSt).books = [b0] ∧
    (loadAll (.ok [b0]) (.ok [q0]) (.ok ["Dune"]) false initSt).quotes = [q0] ∧
    (loadAll (.ok [b0]) (.ok [q0]) (.ok ["Dune"]) false initSt).booksWithQuotes = ["Dune"] ∧
    (loadAll (.ok [b0]) (.ok [q0]) (.ok ["Dune"]) false initSt).cache.books = none ∧
    (loadAll (.ok [b0]) (.ok [q0]) (.ok ["Dune"]) false initSt).cache.quotes = none ∧
    (loadAll (.ok [b0]) (.ok [q0]) (.ok ["Dune"]) false initSt).cache.booksWithQuotes = none ∧
    ¬ (loadAll (.ok [b0]) (.ok [q0]) (.ok ["Dune"]) false
        initSt).cache.books = some (Stored.good [b0]) := by
  simp [loadAll, initSt]

/-- C8 amended: every successful load performed by the three standalone
fetch functions replaces the collection's in-memory value wholesale and
writes the serialized snapshot to the offline cache under its key; the
three loads of the initial load protocol replace the in-memory values
wholesale but write nothing to the cache. -/
theorem load_replaces_and_caches (bs : List Book) (qs : List Quote) (ws : List String)
    (s : St) :
    fetchBooks (.ok bs) s
      = ({ s with books := bs
                  cache := { s.cache with books := some (Stored.good bs) }
                  fetchLog := s.fetchLog ++ [Coll.books] }, false) ∧
    fetchQuotes (.ok qs) s
      = ({ s with quotes := qs
                  cache := { s.cache with quotes := some (Stored.good qs) }
                  fetchLog := s.fetchLog ++ [Coll.quotes] }, false) ∧
    fetchBooksWithQuotes (.ok ws) s
      = ({ s with booksWithQuotes := ws
                  cache := { s.cache with booksWithQuotes := some (Stored.good ws) }
                  fetchLog := s.fetchLog ++ [Coll.booksWithQuotes] }, false) ∧
    loadAll (.ok bs) (.ok qs) (.ok ws) false s
      = { s with books := bs, quotes := qs, booksWithQuotes := ws, loading := false } :=
  ⟨rfl, rfl, rfl, rfl⟩

/-- Concrete state with a corrupt cached `books` entry. -/
def sCorruptB : St :=
  { initSt with cache :=
    { books := some Stored.corrupt, quotes := none, booksWithQuotes := none } }

/-- Concrete state with a corrupt cached `quotes` entry. -/
def sCorruptQ : St :=
  { initSt with cache :=
    { books := none, quotes := some Stored.corrupt, booksWithQuotes := none } }

/-- Concrete state with a parseable cached snapshot for all three keys. -/
def sAllGood : St :=
  { initSt with cache :=
    { books := some (Stored.good [b0])
      quotes := some (Stored.good [q0])
      booksWithQuotes := some (Stored.good ["Dune"]) } }

/-- Concrete state with a corrupt cached entry for all three keys. -/
def sAllCorrupt : St :=
  { initSt with cache :=
    { books := some Stored.corrupt
      quotes := some Stored.corrupt
      booksWithQuotes := some Stored.corrupt } }

/-- C6 counterexample: a failing books fetch over a corrupt cached `books`
entry makes the fetch's own promise reject (the unguarded `JSON.parse`
throws) and raises no fetch-failure notification — refuting both "the
failure is not thrown to the caller" and "a notification is raised" for
this cache state. -/
theorem fetch_fallback_corrupt_cex :
    (fetchBooks (.error ()) sCorruptB).2 = true ∧
    (fetchBooks (.error ()) sCorruptB).1.toasts = sCorruptB.toasts ∧
    (fetchBooks (.error ()) sCorruptB).1.books = sCorruptB.books ∧
    ¬ ((fetchBooks (.error ()) sCorruptB).2 = false ∧
       (fetchBooks (.error ()) sCorruptB).1.toasts
         = sCorruptB.toasts ++ ["Failed to fetch books"]) := by
  simp [fetchBooks, sCorruptB, initSt]

/-- C6 amended: for every per-collection fetch that fails, provided the
cached entry for that collection is absent or deserializable: the failure
is not thrown, an absent entry leaves the collection at its previous value,
a parseable entry sets the collection to exactly the cached snapshot, and
the per-collection fetch-failure notification is raised.  (With a corrupt
entry the unguarded `JSON.parse` throws instead, see
`fetch_fallback_corrupt_cex`.) -/
theorem fetch_failure_fallback (s : St) :
    (s.cache.books = none →
      fetchBooks (.error ()) s
        = ({ s with toasts := s.toasts ++ ["Failed to fetch books"]
                    fetchLog := s.fetchLog ++ [Coll.books] }, false)) ∧
    (∀ v, s.cache.books = some (Stored.good v) →
      fetchBooks (.error ()) s
        = ({ s with books := v
                    toasts := s.toasts ++ ["Failed to fetch books"]
                    fetchLog := s.fetchLog ++ [Coll.books] }, false)) ∧
    (s.cache.quotes = none →
      fetchQuotes (.error ()) s
        = ({ s with toasts := s.toasts ++ ["Failed to fetch quotes"]
                    fetchLog := s.fetchLog ++ [Coll.quotes] }, false)) ∧
    (∀ v, s.cache.quotes = some (Stored.good v) →
      fetchQuotes (.error ()) s
        = ({ s with quotes := v
                    toasts := s.toasts ++ ["Failed to fetch quotes"]
                    fetchLog := s.fetchLog ++ [Coll.quotes] }, false)) ∧
    (s.cache.booksWithQuotes = none →
      fetchBooksWithQuotes (.error ()) s
        = ({ s with toasts := s.toasts ++ ["Failed to fetch books with quotes"]
                    fetchLog := s.fetchLog ++ [Coll.booksWithQuotes] }, false)) ∧
    (∀ v, s.cache.booksWithQuotes = some (Stored.good v) →
      fetchBooksWithQuotes (.error ()) s
        = ({ s with booksWithQuotes := v
                    toasts := s.toasts ++ ["Failed to fetch books with quotes"]
                    fetchLog := s.fetchLog ++ [Coll.booksWithQuotes] }, false)) := by
  refine ⟨?_, ?_, ?_, ?_, ?_, ?_⟩
  · intro h; simp [fetchBooks, h]
  · intro v h; simp [fetchBooks, h]
  · intro h; simp [fetchQuotes, h]
  · intro v h; simp [fetchQuotes, h]
  · intro h; simp [fetchBooksWithQuotes, h]
  · intro v h; simp [fetchBooksWithQuotes, h]

/-- Witness for `fetch_failure_fallback`: absent entries at `initSt`,
parseable entries at `sAllGood`. -/
theorem fetch_failure_fallback_witness :
    (fetchBooks (.error ()) initSt
      = ({ initSt with toasts := initSt.toasts ++ ["Failed to fetch books"]
                       fetchLog := initSt.fetchLog ++ [Coll.books] }, false)) ∧
    (fetchBooks (.error ()) sAllGood
      = ({ sAllGood with books := [b0]
                         toasts := sAllGood.toasts ++ ["Failed to fetch books"]
                         fetchLog := sAllGood.fetchLog ++ [Coll.books] }, false)) ∧
    (fetchQuotes (.error ()) initSt
      = ({ initSt with toasts := initSt.toasts ++ ["Failed to fetch quotes"]
                       fetchLog := initSt.fetchLog ++ [Coll.quotes] }, false)) ∧
    (fetchQuotes (.error ()) sAllGood
      = ({ sAllGood with quotes := [q0]
                         toasts := sAllGood.toasts ++ ["Failed to fetch quotes"]
                         fetchLog := sAllGood.fetchLog ++ [Coll.quotes] }, false)) ∧
    (fetchBooksWithQuotes (.error ()) initSt
      = ({ initSt with toasts := initSt.toasts ++ ["Failed to fetch books with quotes"]
                       fetchLog := initSt.fetchLog ++ [Coll.booksWithQuotes] }, false)) ∧
    (fetchBooksWithQuotes (.error ()) sAllGood
      = ({ sAllGood with booksWithQuotes := ["Dune"]
                         toasts := sAllGood.toasts ++ ["Failed to fetch books with quotes"]
                         fetchLog := sAllGood.fetchLog ++ [Coll.booksWithQuotes] }, false)) :=
  ⟨(fetch_failure_fallback initSt).1 rfl,
   (fetch_failure_fallback sAllGood).2.1 [b0] rfl,
   (fetch_failure_fallback initSt).2.2.1 rfl,
   (fetch_failure_fallback sAllGood).2.2.2.1 [q0] rfl,
   (fetch_failure_fallback initSt).2.2.2.2.1 rfl,
   (fetch_failure_fallback sAllGood).2.2.2.2.2 ["Dune"] rfl⟩

/-- C9 counterexample: a corrupt cached `quotes` entry is not tolerated by
the fallback path — the fetch's promise rejects rather than the entry being
treated as absent — refuting "the fallback path returns absent rather than
failing the caller" for corrupt entries. -/
theorem cache_corrupt_not_tolerated_cex :
    (fetchQuotes (.error ()) sCorruptQ).2 = true ∧
    (fetchQuotes (.error ()) sCorruptQ).1.quotes = sCorruptQ.quotes ∧
    ¬ (fetchQuotes (.error ()) sCorruptQ).2 = false := by
  simp [fetchQuotes, sCorruptQ, initSt]

/-- C9 amended: the fallback path tolerates absent cache entries (the fetch
does not fail and the collection keeps its previous value), but it does not
tolerate corrupt entries: the unguarded `JSON.parse` throws, the fetch's
promise rejects, and — the collection being left unchanged and no
notification raised — the caller fails instead of seeing "absent". -/
theorem cache_read_tolerance (s : St) :
    (s.cache.books = none →
      (fetchBooks (.error ()) s).2 = false ∧ (fetchBooks (.error ()) s).1.books = s.books) ∧
    (s.cache.books = some Stored.corrupt →
      fetchBooks (.error ()) s = ({ s with fetchLog := s.fetchLog ++ [Coll.books] }, true)) ∧
    (s.cache.quotes = none →
      (fetchQuotes (.error ()) s).2 = false ∧ (fetchQuotes (.error ()) s).1.quotes = s.quotes) ∧
    (s.cache.quotes = some Stored.corrupt →
      fetchQuotes (.error ()) s = ({ s with fetchLog := s.fetchLog ++ [Coll.quotes] }, true)) ∧
    (s.cache.booksWithQuotes = none →
      (fetchBooksWithQuotes (.error ()) s).2 = false ∧
      (fetchBooksWithQuotes (.error ()) s).1.booksWithQuotes = s.booksWithQuotes) ∧
    (s.cache.booksWithQuotes = some Stored.corrupt →
      fetchBooksWithQuotes (.error ()) s
        = ({ s with fetchLog := s.fetchLog ++ [Coll.booksWithQuotes] }, true)) := by
  refine ⟨?_, ?_, ?_, ?_, ?_, ?_⟩
  · intro h; simp [fetchBooks, h]
  · intro h; simp [fetchBooks, h]
  · intro h; simp [fetchQuotes, h]
  · intro h; simp [fetchQuotes, h]
  · intro h; simp [fetchBooksWithQuotes, h]
  · intro h; simp [fetchBooksWithQuotes, h]

/-- Witness for `cache_read_tolerance`: absent entries at `initSt`, corrupt
entries at `sAllCorrupt`. -/
theorem cache_read_tolerance_witness :
    ((fetchBooks (.error ()) initSt).2 = false ∧
      (fetchBooks (.error ()) initSt).1.books = initSt.books) ∧
    (fetchBooks (.error ()) sAllCorrupt
      = ({ sAllCorrupt with fetchLog := sAllCorrupt.fetchLog ++ [Coll.books] }, true)) ∧
    ((fetchQuotes (.error ()) initSt).2 = false ∧
      (fetchQuotes (.error ()) initSt).1.quotes = initSt.quotes) ∧
    (fetchQuotes (.error ()) sAllCorrupt
      = ({ sAllCorrupt with fetchLog := sAllCorrupt.fetchLog ++ [Coll.quotes] }, true)) ∧
    ((fetchBooksWithQuotes (.error ()) initSt).2 = false ∧
      (fetchBooksWithQuotes (.error ()) initSt).1.booksWithQuotes
        = initSt.booksWithQuotes) ∧
    (fetchBooksWithQuotes (.error ()) sAllCorrupt
      = ({ sAllCorrupt with
            fetchLog := sAllCorrupt.fetchLog ++ [Coll.booksWithQuotes] }, true)) :=
  ⟨(cache_read_tolerance initSt).1 rfl,
   (cache_read_tolerance sAllCorrupt).2.1 rfl,
   (cache_read_tolerance initSt).2.2.1 rfl,
   (cache_read_tolerance sAllCorrupt).2.2.2.1 rfl,
   (cache_read_tolerance initSt).2.2.2.2.1 rfl,
   (cache_read_tolerance sAllCorrupt).2.2.2.2.2 rfl⟩

/-- C7: a mutation whose write request fails performs no refresh and leaves
the whole state unchanged except that exactly one write request was issued
(no retry) and a classified failure toast is raised; in particular all
three collections, the cache, and the GET log are exactly as before. -/
theorem mutation_failure_no_refresh (form : BookForm) (qform : QuoteForm)
    (hb : jsTrim form.title ≠ "") (hq : jsTrim qform.text ≠ "")
    (t bt qt d : String) (u : BookUpdates) (sel : Option String)
    (nb : Except Unit (List Book)) (nq : Except Unit (List Quote))
    (nw : Except Unit (List String)) (s : St) :
    addBook form (.error ()) nb nw s
      = { s with writes := s.writes ++ [WriteReq.postBook form]
                 toasts := s.toasts ++ ["Failed to add book"] } ∧
    updateBook t u (.error ()) nb nw s
      = { s with writes := s.writes ++ [WriteReq.putBook t u]
                 toasts := s.toasts ++ ["Failed to update book"] } ∧
    deleteBook true t (.error ()) nb s
      = { s with writes := s.writes ++ [WriteReq.delBook t]
                 toasts := s.toasts ++ ["Failed to delete book"] } ∧
    addQuote qform sel (.error ()) nq nw s
      = { s with writes := s.writes ++
            [WriteReq.postQuote ⟨sel, qform.text, qform.user_id, qform.discussion⟩]
                 toasts := s.toasts ++ ["Failed to add quote"] } ∧
    updateQuoteDiscussion bt qt d (.error ()) nq s
      = { s with writes := s.writes ++ [WriteReq.putQuote bt qt d]
                 toasts := s.toasts ++ ["Failed to update discussion"] } ∧
    deleteQuote true bt qt (.error ()) nq nw s
      = { s with writes := s.writes ++ [WriteReq.delQuote bt qt]
                 toasts := s.toasts ++ ["Failed to delete quote"] } := by
  refine ⟨?_, ?_, ?_, ?_, ?_, ?_⟩
  · simp [addBook, hb]
  · simp [updateBook]
  · simp [deleteBook]
  · simp [addQuote, hq]
  · simp [updateQuoteDiscussion]
  · simp [deleteQuote]

/-- Witness for `mutation_failure_no_refresh` at concrete inputs. -/
theorem mutation_failure_no_refresh_witness :
    addBook f0 (.error ()) (.ok []) (.ok []) initSt
      = { initSt with writes := initSt.writes ++ [WriteReq.postBook f0]
                      toasts := initSt.toasts ++ ["Failed to add book"] } ∧
    updateBook "Dune" u0 (.error ()) (.ok []) (.ok []) initSt
      = { initSt with writes := initSt.writes ++ [WriteReq.putBook "Dune" u0]
                      toasts := initSt.toasts ++ ["Failed to update book"] } ∧
    deleteBook true "Dune" (.error ()) (.ok []) initSt
      = { initSt with writes := initSt.writes ++ [WriteReq.delBook "Dune"]
                      toasts := initSt.toasts ++ ["Failed to delete book"] } ∧
    addQuote qf0 (some "Dune") (.error ()) (.ok []) (.ok []) initSt
      = { initSt with writes := initSt.writes ++
            [WriteReq.postQuote ⟨some "Dune", qf0.text, qf0.user_id, qf0.discussion⟩]
                      toasts := initSt.toasts ++ ["Failed to add quote"] } ∧
    updateQuoteDiscussion "Dune" "x" "y" (.error ()) (.ok []) initSt
      = { initSt with writes := initSt.writes ++ [WriteReq.putQuote "Dune" "x" "y"]
                      toasts := initSt.toasts ++ ["Failed to update discussion"] } ∧
    deleteQuote true "Dune" "x" (.error ()) (.ok []) (.ok []) initSt
      = { initSt with writes := initSt.writes ++ [WriteReq.delQuote "Dune" "x"]
                      toasts := initSt.toasts ++ ["Failed to delete quote"] } :=
  mutation_failure_no_refresh f0 qf0 (by decide) (by decide) "Dune" "Dune" "x" "y" u0
    (some "Dune") (.ok []) (.ok []) (.ok []) initSt

/-- C10: Add Quote validates only the quote text — empty or whitespace-only
text blocks the call before any request — and performs no check that a book
is selected: with no book selected and non-blank text, the create-quote
request is issued (whatever its outcome) with `book_title` null. -/
theorem addQuote_null_book_title (form : QuoteForm) (wr : Except Unit Unit)
    (nq : Except Unit (List Quote)) (nw : Except Unit (List String)) (s : St) :
    (jsTrim form.text = "" →
      addQuote form none wr nq nw s
        = { s with toasts := s.toasts ++ ["Quote text is required"] }) ∧
    (jsTrim form.text ≠ "" →
      (addQuote form none wr nq nw s).writes
        = s.writes ++
            [WriteReq.postQuote ⟨none, form.text, form.user_id, form.discussion⟩]) := by
  constructor
  · intro h; simp [addQuote, h]
  · intro h
    cases wr with
    | ok u => simp [addQuote, h, fetchQuotes_writes, fetchBWQ_writes]
    | error e => simp [addQuote, h]

/-- Witness for `addQuote_null_book_title`: the whitespace-only form is
blocked; the non-blank form posts with `book_title` null. -/
theorem addQuote_null_book_title_witness :
    (addQuote qfBlank none (.ok ()) (.ok []) (.ok []) initSt
      = { initSt with toasts := initSt.toasts ++ ["Quote text is required"] }) ∧
    ((addQuote qf0 none (.ok ()) (.ok []) (.ok []) initSt).writes
      = initSt.writes ++
          [WriteReq.postQuote ⟨none, qf0.text, qf0.user_id, qf0.discussion⟩]) :=
  ⟨(addQuote_null_book_title qfBlank (.ok ()) (.ok []) (.ok []) initSt).1 (by decide),
   (addQuote_null_book_title qf0 (.ok ()) (.ok []) (.ok []) initSt).2 (by decide)⟩

end BookApp
